import Mathlib

/-!
Verification development for the `file-organizer` repository.

The repository has two Python source files:
* `src/file_organizer/cli.py` with `organize_by_extension`, `organize_by_date`
  and `organize_by_size`, each a walk-classify-move loop over a directory
  listing, and
* `src/main.py` with an earlier `organize_by_extension` (extension strategy
  only, non-recursive, no dry-run).

The embedding below models paths as lists of components, a directory listing
as a list of `Entry` values (what `path.iterdir()` or `path.rglob("*")`
yields), and the filesystem mutations performed by a run as a list of
`FsAction` values.  Failures of `Path.mkdir` and `Path.rename` are injected
through an `FsOracle`; an exception that the Python code does not catch is
modelled as an `Except.error` that aborts the walk.
-/

/-- A filesystem path, as its list of components. -/
abbrev FilePath' := List String

/-- One item yielded by the directory walk (`path.iterdir()` /
`path.rglob("*")`): its parent directory, base name, whether `is_file()`
holds, `st_size`, and the local-time year/month/day of `st_mtime`
(`datetime.fromtimestamp(m_time)`). -/
structure Entry where
  dir : FilePath'
  name : String
  isFile : Bool
  size : Int
  year : Nat
  month : Nat
  day : Nat
deriving DecidableEq

/-- Per-file outcome, mirroring the console reports of the source:
moved, would-move (dry run), skipped (with reason), failed (with the
printed error text). -/
inductive OrganizeResult where
  | moved (dest : FilePath')
  | wouldMove (dest : FilePath')
  | skipped (reason : String)
  | failed (msg : String)
deriving DecidableEq

/-- A filesystem mutation performed by a run: `dest_dir.mkdir(exist_ok=True)`
or `item.rename(dest_path)`. -/
inductive FsAction where
  | mkdir (dir : FilePath')
  | rename (src : FilePath') (dst : FilePath')
deriving DecidableEq

/-- Failure injection for the two filesystem calls: `mkdirError d` is the
exception message raised by `d.mkdir(exist_ok=True)` (`none` = success),
`renameError s d` the exception message raised by `s.rename(d)`. -/
structure FsOracle where
  mkdirError : FilePath' → Option String
  renameError : FilePath' → FilePath' → Option String

/-- Outcome of one strategy run: the filesystem mutations performed, the
per-file reports emitted, and `some msg` when an uncaught exception aborted
the walk (entries after that point are never reached). -/
structure RunOutcome where
  actions : List FsAction
  results : List OrganizeResult
  aborted : Option String
deriving DecidableEq

/-- Python `PurePath.suffix`: the last dot-separated extension of a name,
dot included; empty when the only dot is leading or trailing
(`"photo.JPG"` ↦ `".JPG"`, `".bashrc"` ↦ `""`, `"file."` ↦ `""`). -/
def pySuffix (name : String) : String :=
  let cs := name.data
  match ((List.range cs.length).filter (fun i => cs.get? i = some '.')).getLast? with
  | some i => if 0 < i ∧ i + 1 < cs.length then String.mk (cs.drop i) else ""
  | none => ""

/-- Python `str.lower()` (ASCII case folding, which is all the source's
inputs exercise), character by character. -/
def pyLower (s : String) : String :=
  String.mk (s.data.map Char.toLower)

/-- Python `name.startswith(".")`: the first character is a dot. -/
def startsWithDot (name : String) : Bool :=
  match name.data with
  | c :: _ => c == '.'
  | [] => false

/-- Python `f"\x7bn:02\x7d"`: decimal digits, zero-padded to width two. -/
def pad2 (n : Nat) : String :=
  if n < 10 then "0" ++ toString n else toString n

/-- Scanner for `pyFormat`.  The first argument is `none` outside a
replacement field and `some acc` inside one, `acc` holding the field name
read so far in reverse.  `\x7b\x7b` and `\x7d\x7d` are escapes; a field
name is looked up in the substitution list, a missing name is Python's
`KeyError`, an unmatched brace its `ValueError`. -/
def pyFormatAux (subs : List (String × String)) :
    Option (List Char) → List Char → Except String (List Char)
  | none, [] => Except.ok []
  | none, '\x7b' :: '\x7b' :: rest =>
    (pyFormatAux subs none rest).map (fun t => '\x7b' :: t)
  | none, '\x7d' :: '\x7d' :: rest =>
    (pyFormatAux subs none rest).map (fun t => '\x7d' :: t)
  | none, '\x7b' :: rest => pyFormatAux subs (some []) rest
  | none, '\x7d' :: _ => Except.error "ValueError: single brace in template"
  | none, c :: rest => (pyFormatAux subs none rest).map (fun t => c :: t)
  | some acc, '\x7d' :: rest =>
    match subs.lookup (String.mk acc.reverse) with
    | some v => (pyFormatAux subs none rest).map (fun t => v.data ++ t)
    | none => Except.error ("KeyError: " ++ String.mk acc.reverse)
  | some acc, c :: rest => pyFormatAux subs (some (c :: acc)) rest
  | some _, [] => Except.error "ValueError: unmatched brace in template"

/-- Python `template.format(**subs)` restricted to plain named replacement
fields, which is all the source uses: each `\x7bname\x7d` is replaced by
the value bound to `name`, an unknown name raises `KeyError` (an
`Except.error` here). -/
def pyFormat (template : String) (subs : List (String × String)) :
    Except String String :=
  (pyFormatAux subs none template.data).map String.mk

/-- `min_size <= size < max_size` for one bucket of `size_map`; `none` as
upper bound stands for `float("inf")`. -/
def inRange (size : Int) (lo : Int) (hi : Option Int) : Bool :=
  decide (lo ≤ size) && (match hi with
    | some h => decide (size < h)
    | none => true)

/-- The `size_map` dict of `organize_by_size`, in insertion order. -/
def size_map : List (String × Int × Option Int) :=
  [("Tiny", 0, some 1024),
   ("Small", 1024, some 1048576),
   ("Medium", 1048576, some 134217728),
   ("Large", 134217728, some 1073741824),
   ("Huge", 1073741824, none)]

/-- The bucket-lookup loop of `organize_by_size` (cli.py lines 125-129):
first entry of `size_map` whose range contains `size` wins, default
`"Unknown"`. -/
def sizeFolderName (size : Int) : String :=
  ((size_map.find? (fun e => inRange size e.2.1 e.2.2)).map (fun e => e.1)).getD
    "Unknown"

/-- `ext_template.format(ext=extension[1:])` where
`extension = item.suffix.lower()` (cli.py lines 27 and 34). -/
def extFolderName (ext_template : String) (name : String) : Except String String :=
  pyFormat ext_template [("ext", (pyLower (pySuffix name)).drop 1)]

/-- `date_template.format(YYYY=..., MM=..., DD=...)` from the entry's
modification date (cli.py lines 71-77). -/
def dateFolderName (date_template : String) (item : Entry) : Except String String :=
  pyFormat date_template
    [("YYYY", toString item.year), ("MM", pad2 item.month), ("DD", pad2 item.day)]

/-- `size_template.format(size=dest_folder_name)` (cli.py line 131). -/
def sizeTemplateFolderName (size_template : String) (item : Entry) :
    Except String String :=
  pyFormat size_template [("size", sizeFolderName item.size)]

namespace Cli

/-- Loop body of `organize_by_extension` (cli.py lines 23-54) for one
entry.  Directories and hidden names fall through silently; a file without
extension is reported skipped; the folder name is formatted (a `KeyError`
here is uncaught: `Except.error`); under dry run a would-move is reported;
otherwise `mkdir(exist_ok=True)` runs outside the `try` (failure is
uncaught) and the `rename` runs inside it (failure becomes a per-file
report whose text is the literal f-string artefact `\x7be\x7d`). -/
def extStep (root : FilePath') (dry_run : Bool) (ext_template : String)
    (oracle : FsOracle) (item : Entry) :
    Except String (List FsAction × Option OrganizeResult) :=
  if !item.isFile || startsWithDot item.name then
    Except.ok ([], none)
  else
    if pyLower (pySuffix item.name) = "" then
      Except.ok ([], some (OrganizeResult.skipped "no extension"))
    else
      match extFolderName ext_template item.name with
      | Except.error e => Except.error e
      | Except.ok dest_dir_name =>
        let dest_dir := root ++ [dest_dir_name]
        if dry_run then
          Except.ok ([], some (OrganizeResult.wouldMove (dest_dir ++ [item.name])))
        else
          match oracle.mkdirError dest_dir with
          | some e => Except.error e
          | none =>
            let dest_path := dest_dir ++ [item.name]
            match oracle.renameError (item.dir ++ [item.name]) dest_path with
            | some _ =>
              Except.ok ([FsAction.mkdir dest_dir],
                some (OrganizeResult.failed
                  ("Error moving '" ++ item.name ++ "': \x7be\x7d")))
            | none =>
              Except.ok
                ([FsAction.mkdir dest_dir,
                  FsAction.rename (item.dir ++ [item.name]) dest_path],
                 some (OrganizeResult.moved dest_path))

/-- Loop body of `organize_by_date` (cli.py lines 67-97) for one entry. -/
def dateStep (root : FilePath') (dry_run : Bool) (date_template : String)
    (oracle : FsOracle) (item : Entry) :
    Except String (List FsAction × Option OrganizeResult) :=
  if !item.isFile || startsWithDot item.name then
    Except.ok ([], none)
  else
    match dateFolderName date_template item with
    | Except.error e => Except.error e
    | Except.ok dest_dir_name =>
      let dest_dir := root ++ [dest_dir_name]
      if dry_run then
        Except.ok ([], some (OrganizeResult.wouldMove (dest_dir ++ [item.name])))
      else
        match oracle.mkdirError dest_dir with
        | some e => Except.error e
        | none =>
          let dest_path := dest_dir ++ [item.name]
          match oracle.renameError (item.dir ++ [item.name]) dest_path with
          | some _ =>
            Except.ok ([FsAction.mkdir dest_dir],
              some (OrganizeResult.failed
                ("Error moving '" ++ item.name ++ "': \x7be\x7d")))
          | none =>
            Except.ok
              ([FsAction.mkdir dest_dir,
                FsAction.rename (item.dir ++ [item.name]) dest_path],
               some (OrganizeResult.moved dest_path))

/-- Loop body of `organize_by_size` (cli.py lines 120-151) for one entry. -/
def sizeStep (root : FilePath') (dry_run : Bool) (size_template : String)
    (oracle : FsOracle) (item : Entry) :
    Except String (List FsAction × Option OrganizeResult) :=
  if !item.isFile || startsWithDot item.name then
    Except.ok ([], none)
  else
    match sizeTemplateFolderName size_template item with
    | Except.error e => Except.error e
    | Except.ok dest_dir_name =>
      let dest_dir := root ++ [dest_dir_name]
      if dry_run then
        Except.ok ([], some (OrganizeResult.wouldMove (dest_dir ++ [item.name])))
      else
        match oracle.mkdirError dest_dir with
        | some e => Except.error e
        | none =>
          let dest_path := dest_dir ++ [item.name]
          match oracle.renameError (item.dir ++ [item.name]) dest_path with
          | some _ =>
            Except.ok ([FsAction.mkdir dest_dir],
              some (OrganizeResult.failed
                ("Error moving '" ++ item.name ++ "': \x7be\x7d")))
          | none =>
            Except.ok
              ([FsAction.mkdir dest_dir,
                FsAction.rename (item.dir ++ [item.name]) dest_path],
               some (OrganizeResult.moved dest_path))

end Cli

/-- The `for item in items:` walk: entries are processed left to right; an
uncaught exception (an `Except.error` step) stops the walk there, keeping
the mutations and reports already produced. -/
def runLoop (step : Entry → Except String (List FsAction × Option OrganizeResult)) :
    List Entry → RunOutcome
  | [] => ⟨[], [], none⟩
  | item :: rest =>
    match step item with
    | Except.error e => ⟨[], [], some e⟩
    | Except.ok (acts, r) =>
      let out := runLoop step rest
      ⟨acts ++ out.actions, r.toList ++ out.results, out.aborted⟩

namespace Cli

/-- `organize_by_extension` of cli.py over a given directory listing
(`items` is what `path.rglob("*")` or `path.iterdir()` yielded, depending
on `recursive`). -/
def organize_by_extension (root : FilePath') (dry_run : Bool)
    (ext_template : String) (oracle : FsOracle) (items : List Entry) : RunOutcome :=
  runLoop (extStep root dry_run ext_template oracle) items

/-- `organize_by_date` of cli.py over a given directory listing. -/
def organize_by_date (root : FilePath') (dry_run : Bool)
    (date_template : String) (oracle : FsOracle) (items : List Entry) : RunOutcome :=
  runLoop (dateStep root dry_run date_template oracle) items

/-- `organize_by_size` of cli.py over a given directory listing. -/
def organize_by_size (root : FilePath') (dry_run : Bool)
    (size_template : String) (oracle : FsOracle) (items : List Entry) : RunOutcome :=
  runLoop (sizeStep root dry_run size_template oracle) items

end Cli

namespace MainPy

/-- Loop body of `organize_by_extension` in src/main.py (lines 16-42) for
one entry: like the cli.py extension step with no dry run and no template
(the folder is `extension[1:]` itself), and the `except` clause prints the
actual exception text (`\x7be\x7d` is interpolated there). -/
def extStep (root : FilePath') (oracle : FsOracle) (item : Entry) :
    Except String (List FsAction × Option OrganizeResult) :=
  if !item.isFile || startsWithDot item.name then
    Except.ok ([], none)
  else
    if pyLower (pySuffix item.name) = "" then
      Except.ok ([], some (OrganizeResult.skipped "no extension"))
    else
      let dest_dir := root ++ [(pyLower (pySuffix item.name)).drop 1]
      match oracle.mkdirError dest_dir with
      | some e => Except.error e
      | none =>
        let dest_path := dest_dir ++ [item.name]
        match oracle.renameError (item.dir ++ [item.name]) dest_path with
        | some e =>
          Except.ok ([FsAction.mkdir dest_dir],
            some (OrganizeResult.failed
              ("Error moving '" ++ item.name ++ "': " ++ e)))
        | none =>
          Except.ok
            ([FsAction.mkdir dest_dir,
              FsAction.rename (item.dir ++ [item.name]) dest_path],
             some (OrganizeResult.moved dest_path))

/-- `organize_by_extension` of src/main.py over a given directory listing
(always `path.iterdir()`, never recursive, never dry run). -/
def organize_by_extension (root : FilePath') (oracle : FsOracle)
    (items : List Entry) : RunOutcome :=
  runLoop (extStep root oracle) items

end MainPy

/-- Erase the failure text of a report, keeping everything else: used to
compare runs up to the wording of error messages. -/
def resultCore : OrganizeResult → OrganizeResult
  | OrganizeResult.failed _ => OrganizeResult.failed ""
  | r => r

/-- A regular file `root/a.txt`. -/
def entryA : Entry := ⟨["root"], "a.txt", true, 10, 2024, 3, 5⟩

/-- A regular file `root/b.txt`. -/
def entryB : Entry := ⟨["root"], "b.txt", true, 10, 2024, 3, 5⟩

/-- A regular file `root/sub/c.txt`, as a recursive walk would yield it. -/
def entrySub : Entry := ⟨["root", "sub"], "c.txt", true, 10, 2024, 3, 5⟩

/-- An oracle under which every `mkdir` and `rename` succeeds. -/
def okOracle : FsOracle := ⟨fun _ => none, fun _ _ => none⟩

/-- An oracle under which every `mkdir` raises `PermissionError`. -/
def mkdirFailOracle : FsOracle :=
  ⟨fun _ => some "PermissionError: mkdir denied", fun _ _ => none⟩

/-- An oracle under which renaming `root/a.txt` raises `PermissionError`
and everything else succeeds. -/
def renameAFailOracle : FsOracle :=
  ⟨fun _ => none,
   fun s _ => if s = ["root", "a.txt"] then
     some "PermissionError: Permission denied" else none⟩

/-- With the default extension template the formatted folder name is
exactly the substituted value. -/
theorem pyFormat_ext (v : String) :
    pyFormat "\x7bext\x7d" [("ext", v)] = Except.ok v := by
  show Except.ok (String.mk (v.data ++ [])) = Except.ok v
  simp

/-- `extFolderName` at the default template `\x7bext\x7d`. -/
theorem extFolderName_default (name : String) :
    extFolderName "\x7bext\x7d" name =
      Except.ok ((pyLower (pySuffix name)).drop 1) := by
  unfold extFolderName
  exact pyFormat_ext _

/-- Every action performed by a walk comes from one `Except.ok` step on
one of the listed entries. -/
theorem runLoop_actions_mem {step : Entry → Except String (List FsAction × Option OrganizeResult)}
    {items : List Entry} {a : FsAction}
    (h : a ∈ (runLoop step items).actions) :
    ∃ item ∈ items, ∃ acts r, step item = Except.ok (acts, r) ∧ a ∈ acts := by
  induction items with
  | nil => simp [runLoop] at h
  | cons x xs ih =>
    cases hx : step x with
    | error e =>
      rw [runLoop, hx] at h
      simp at h
    | ok p =>
      obtain ⟨acts, r⟩ := p
      rw [runLoop, hx] at h
      simp only [List.mem_append] at h
      rcases h with h | h
      · exact ⟨x, List.mem_cons_self x xs, acts, r, hx, h⟩
      · obtain ⟨item, hmem, acts', r', hstep, ha⟩ := ih h
        exact ⟨item, List.mem_cons_of_mem x hmem, acts', r', hstep, ha⟩

/-- A walk whose every successful step performs no action performs no
action at all. -/
theorem runLoop_actions_nil {step : Entry → Except String (List FsAction × Option OrganizeResult)}
    (hstep : ∀ item acts r, step item = Except.ok (acts, r) → acts = [])
    (items : List Entry) : (runLoop step items).actions = [] := by
  induction items with
  | nil => rfl
  | cons x xs ih =>
    cases hx : step x with
    | error e => rw [runLoop, hx]
    | ok p =>
      obtain ⟨acts, r⟩ := p
      rw [runLoop, hx]
      simp [hstep x acts r hx, ih]
/-- Under dry run, a successful extension step performs no action. -/
theorem extStep_dry_actions {root : FilePath'} {tmpl : String} {oracle : FsOracle}
    {item : Entry} {acts : List FsAction} {r : Option OrganizeResult}
    (h : Cli.extStep root true tmpl oracle item = Except.ok (acts, r)) : acts = [] := by
  unfold Cli.extStep at h
  split at h
  · simp_all
  · split at h
    · simp_all
    · split at h
      · simp_all
      · simp_all

/-- Every action of a successful extension step is a `mkdir` of a direct
child of the root, or a `rename` of the (regular, non-hidden) entry itself
into a direct child of the root keeping its base name. -/
theorem extStep_actions_spec {root : FilePath'} {dry : Bool} {tmpl : String}
    {oracle : FsOracle} {item : Entry} {acts : List FsAction} {r : Option OrganizeResult}
    (h : Cli.extStep root dry tmpl oracle item = Except.ok (acts, r)) :
    ∀ a ∈ acts,
      (∃ d, a = FsAction.mkdir (root ++ [d])) ∨
      (∃ d, a = FsAction.rename (item.dir ++ [item.name]) (root ++ [d, item.name]) ∧
        item.isFile = true ∧ startsWithDot item.name = false) := by
  unfold Cli.extStep at h
  split at h
  · simp_all
  · rename_i helig
    rw [Bool.or_eq_true, Bool.not_eq_true'] at helig
    push_neg at helig
    split at h
    · simp_all
    · split at h
      · simp_all
      · rename_i d hfold
        split at h
        · simp_all
        · dsimp only at h
          split at h
          · simp_all
          · split at h
            · rename_i e hren
              rw [Except.ok.injEq, Prod.mk.injEq] at h
              obtain ⟨ha, -⟩ := h
              subst ha
              intro a ha
              simp only [List.mem_singleton] at ha
              subst ha
              exact Or.inl ⟨d, rfl⟩
            · rename_i hren
              rw [Except.ok.injEq, Prod.mk.injEq] at h
              obtain ⟨ha, -⟩ := h
              subst ha
              intro a ha
              simp only [List.mem_cons, List.mem_singleton] at ha
              rcases ha with ha | ha | ha
              · exact Or.inl ⟨d, ha ▸ rfl⟩
              · subst ha
                exact Or.inr ⟨d, by simp, by simpa using helig.1, by simpa using helig.2⟩
              · cases ha
/-- Under dry run, a successful date step performs no action. -/
theorem dateStep_dry_actions {root : FilePath'} {tmpl : String} {oracle : FsOracle}
    {item : Entry} {acts : List FsAction} {r : Option OrganizeResult}
    (h : Cli.dateStep root true tmpl oracle item = Except.ok (acts, r)) : acts = [] := by
  unfold Cli.dateStep at h
  split at h
  · simp_all
  · split at h
    · simp_all
    · simp_all

/-- Under dry run, a successful size step performs no action. -/
theorem sizeStep_dry_actions {root : FilePath'} {tmpl : String} {oracle : FsOracle}
    {item : Entry} {acts : List FsAction} {r : Option OrganizeResult}
    (h : Cli.sizeStep root true tmpl oracle item = Except.ok (acts, r)) : acts = [] := by
  unfold Cli.sizeStep at h
  split at h
  · simp_all
  · split at h
    · simp_all
    · simp_all

/-- Action characterization for the date step, as for the extension step. -/
theorem dateStep_actions_spec {root : FilePath'} {dry : Bool} {tmpl : String}
    {oracle : FsOracle} {item : Entry} {acts : List FsAction} {r : Option OrganizeResult}
    (h : Cli.dateStep root dry tmpl oracle item = Except.ok (acts, r)) :
    ∀ a ∈ acts,
      (∃ d, a = FsAction.mkdir (root ++ [d])) ∨
      (∃ d, a = FsAction.rename (item.dir ++ [item.name]) (root ++ [d, item.name]) ∧
        item.isFile = true ∧ startsWithDot item.name = false) := by
  unfold Cli.dateStep at h
  split at h
  · simp_all
  · rename_i helig
    rw [Bool.or_eq_true, Bool.not_eq_true'] at helig
    push_neg at helig
    split at h
    · simp_all
    · rename_i d hfold
      split at h
      · simp_all
      · dsimp only at h
        split at h
        · simp_all
        · split at h
          · rename_i e hren
            rw [Except.ok.injEq, Prod.mk.injEq] at h
            obtain ⟨ha, -⟩ := h
            subst ha
            intro a ha
            simp only [List.mem_singleton] at ha
            subst ha
            exact Or.inl ⟨d, rfl⟩
          · rename_i hren
            rw [Except.ok.injEq, Prod.mk.injEq] at h
            obtain ⟨ha, -⟩ := h
            subst ha
            intro a ha
            simp only [List.mem_cons, List.mem_singleton] at ha
            rcases ha with ha | ha | ha
            · exact Or.inl ⟨d, ha ▸ rfl⟩
            · subst ha
              exact Or.inr ⟨d, by simp, by simpa using helig.1, by simpa using helig.2⟩
            · cases ha

/-- Action characterization for the size step, as for the extension step. -/
theorem sizeStep_actions_spec {root : FilePath'} {dry : Bool} {tmpl : String}
    {oracle : FsOracle} {item : Entry} {acts : List FsAction} {r : Option OrganizeResult}
    (h : Cli.sizeStep root dry tmpl oracle item = Except.ok (acts, r)) :
    ∀ a ∈ acts,
      (∃ d, a = FsAction.mkdir (root ++ [d])) ∨
      (∃ d, a = FsAction.rename (item.dir ++ [item.name]) (root ++ [d, item.name]) ∧
        item.isFile = true ∧ startsWithDot item.name = false) := by
  unfold Cli.sizeStep at h
  split at h
  · simp_all
  · rename_i helig
    rw [Bool.or_eq_true, Bool.not_eq_true'] at helig
    push_neg at helig
    split at h
    · simp_all
    · rename_i d hfold
      split at h
      · simp_all
      · dsimp only at h
        split at h
        · simp_all
        · split at h
          · rename_i e hren
            rw [Except.ok.injEq, Prod.mk.injEq] at h
            obtain ⟨ha, -⟩ := h
            subst ha
            intro a ha
            simp only [List.mem_singleton] at ha
            subst ha
            exact Or.inl ⟨d, rfl⟩
          · rename_i hren
            rw [Except.ok.injEq, Prod.mk.injEq] at h
            obtain ⟨ha, -⟩ := h
            subst ha
            intro a ha
            simp only [List.mem_cons, List.mem_singleton] at ha
            rcases ha with ha | ha | ha
            · exact Or.inl ⟨d, ha ▸ rfl⟩
            · subst ha
              exact Or.inr ⟨d, by simp, by simpa using helig.1, by simpa using helig.2⟩
            · cases ha
/-- Full characterization of the size-bucket loop: negative sizes (which
`st_size` never produces) fall through to the defensive `"Unknown"`,
non-negative sizes land in the contiguous half-open buckets. -/
theorem sizeFolderName_eq (n : Int) :
    sizeFolderName n =
      if n < 0 then "Unknown"
      else if n < 1024 then "Tiny"
      else if n < 1048576 then "Small"
      else if n < 134217728 then "Medium"
      else if n < 1073741824 then "Large"
      else "Huge" := by
  unfold sizeFolderName size_map
  rcases lt_or_le n 0 with h0 | h0
  · have e1 : inRange n 0 (some 1024) = false := by simp [inRange]; omega
    have e2 : inRange n 1024 (some 1048576) = false := by simp [inRange]; omega
    have e3 : inRange n 1048576 (some 134217728) = false := by
      simp [inRange]; omega
    have e4 : inRange n 134217728 (some 1073741824) = false := by
      simp [inRange]; omega
    have e5 : inRange n 1073741824 none = false := by simp [inRange]; omega
    simp only [List.find?, e1, e2, e3, e4, e5]
    simp [h0]
  · rcases lt_or_le n 1024 with h1 | h1
    · have e1 : inRange n 0 (some 1024) = true := by simp [inRange]; omega
      simp only [List.find?, e1]
      simp [h1, show ¬n < 0 by omega]
    · rcases lt_or_le n 1048576 with h2 | h2
      · have e1 : inRange n 0 (some 1024) = false := by simp [inRange]; omega
        have e2 : inRange n 1024 (some 1048576) = true := by
          simp [inRange]; omega
        simp only [List.find?, e1, e2]
        simp [h2, show ¬n < 0 by omega, show ¬n < 1024 by omega]
      · rcases lt_or_le n 134217728 with h3 | h3
        · have e1 : inRange n 0 (some 1024) = false := by simp [inRange]; omega
          have e2 : inRange n 1024 (some 1048576) = false := by
            simp [inRange]; omega
          have e3 : inRange n 1048576 (some 134217728) = true := by
            simp [inRange]; omega
          simp only [List.find?, e1, e2, e3]
          simp [h3, show ¬n < 0 by omega, show ¬n < 1024 by omega,
            show ¬n < 1048576 by omega]
        · rcases lt_or_le n 1073741824 with h4 | h4
          · have e1 : inRange n 0 (some 1024) = false := by
              simp [inRange]; omega
            have e2 : inRange n 1024 (some 1048576) = false := by
              simp [inRange]; omega
            have e3 : inRange n 1048576 (some 134217728) = false := by
              simp [inRange]; omega
            have e4 : inRange n 134217728 (some 1073741824) = true := by
              simp [inRange]; omega
            simp only [List.find?, e1, e2, e3, e4]
            simp [h4, show ¬n < 0 by omega, show ¬n < 1024 by omega,
              show ¬n < 1048576 by omega, show ¬n < 134217728 by omega]
          · have e1 : inRange n 0 (some 1024) = false := by
              simp [inRange]; omega
            have e2 : inRange n 1024 (some 1048576) = false := by
              simp [inRange]; omega
            have e3 : inRange n 1048576 (some 134217728) = false := by
              simp [inRange]; omega
            have e4 : inRange n 134217728 (some 1073741824) = false := by
              simp [inRange]; omega
            have e5 : inRange n 1073741824 none = true := by
              simp [inRange]; omega
            simp only [List.find?, e1, e2, e3, e4, e5]
            simp [show ¬n < 0 by omega, show ¬n < 1024 by omega,
              show ¬n < 1048576 by omega, show ¬n < 134217728 by omega,
              show ¬n < 1073741824 by omega]
/-- With its default arguments, one step of the cli.py extension organizer
and one step of the main.py organizer agree on actions, abort behaviour,
and reports up to failure wording. -/
theorem ext_default_step_equiv (root : FilePath') (oracle : FsOracle) (item : Entry) :
    (Cli.extStep root false "\x7bext\x7d" oracle item).map
        (fun p => (p.1, p.2.map resultCore)) =
      (MainPy.extStep root oracle item).map
        (fun p => (p.1, p.2.map resultCore)) := by
  unfold Cli.extStep MainPy.extStep
  rw [extFolderName_default]
  by_cases helig : (!item.isFile || startsWithDot item.name) = true
  · simp [helig]
  · by_cases hext : pyLower (pySuffix item.name) = ""
    · simp [helig, hext]
    · simp only [helig, hext, if_neg, if_false, Bool.false_eq_true]
      cases hmk : oracle.mkdirError (root ++ [(pyLower (pySuffix item.name)).drop 1]) with
      | some e => simp [hmk]
      | none =>
        simp only [hmk]
        cases hrn : oracle.renameError (item.dir ++ [item.name])
            (root ++ [(pyLower (pySuffix item.name)).drop 1] ++ [item.name]) with
        | some e => simp [hrn, resultCore, Except.map]
        | none => simp [hrn]

/-- Two walks whose steps agree on actions, abort behaviour and reports up
to failure wording agree globally in the same sense. -/
theorem runLoop_congr_core
    {step1 step2 : Entry → Except String (List FsAction × Option OrganizeResult)}
    (h : ∀ item, (step1 item).map (fun p => (p.1, p.2.map resultCore)) =
      (step2 item).map (fun p => (p.1, p.2.map resultCore)))
    (items : List Entry) :
    (runLoop step1 items).actions = (runLoop step2 items).actions ∧
    (runLoop step1 items).results.map resultCore =
      (runLoop step2 items).results.map resultCore ∧
    (runLoop step1 items).aborted = (runLoop step2 items).aborted := by
  induction items with
  | nil => exact ⟨rfl, rfl, rfl⟩
  | cons x xs ih =>
    have hx := h x
    cases h1 : step1 x with
    | error e1 =>
      cases h2 : step2 x with
      | error e2 =>
        rw [h1, h2] at hx
        simp only [Except.map] at hx
        cases hx
        simp [runLoop, h1, h2]
      | ok p2 =>
        rw [h1, h2] at hx
        simp [Except.map] at hx
    | ok p1 =>
      cases h2 : step2 x with
      | error e2 =>
        rw [h1, h2] at hx
        simp [Except.map] at hx
      | ok p2 =>
        obtain ⟨acts1, r1⟩ := p1
        obtain ⟨acts2, r2⟩ := p2
        rw [h1, h2] at hx
        simp only [Except.map, Except.ok.injEq, Prod.mk.injEq] at hx
        obtain ⟨hacts, hr⟩ := hx
        have hrl : r1.toList.map resultCore = r2.toList.map resultCore := by
          cases r1 <;> cases r2 <;> simp_all
        simp only [runLoop, h1, h2]
        refine ⟨by rw [hacts, ih.1], ?_, ih.2.2⟩
        simp only [List.map_append, hrl, ih.2.1]
/-- C4: for every root, template, failure environment and directory
listing (hence for every recursion setting), a dry run of any of the three
strategies performs no filesystem mutation: no `mkdir` and no `rename` is
executed, every would-be move is only reported. -/
theorem C4_dry_run_never_mutates :
    ∀ (root : FilePath') (tmpl : String) (oracle : FsOracle) (items : List Entry),
      (Cli.organize_by_extension root true tmpl oracle items).actions = [] ∧
      (Cli.organize_by_date root true tmpl oracle items).actions = [] ∧
      (Cli.organize_by_size root true tmpl oracle items).actions = [] := by
  intro root tmpl oracle items
  exact ⟨runLoop_actions_nil (fun item acts r h => extStep_dry_actions h) items,
    runLoop_actions_nil (fun item acts r h => dateStep_dry_actions h) items,
    runLoop_actions_nil (fun item acts r h => sizeStep_dry_actions h) items⟩

/-- C5: the size classifier realizes the ordered half-open partition
Tiny [0,1024), Small [1024,1048576), Medium [1048576,134217728),
Large [134217728,1073741824), Huge [1073741824,∞) on every non-negative
byte size, with 0 ↦ Tiny, 1024 ↦ Small, 1048576 ↦ Medium; and a size whose
lookup matches no bucket of `size_map` maps to `"Unknown"`. -/
theorem C5_size_bucket_partition :
    (∀ n : Int, 0 ≤ n →
      sizeFolderName n =
        if n < 1024 then "Tiny"
        else if n < 1048576 then "Small"
        else if n < 134217728 then "Medium"
        else if n < 1073741824 then "Large"
        else "Huge") ∧
    sizeFolderName 0 = "Tiny" ∧
    sizeFolderName 1024 = "Small" ∧
    sizeFolderName 1048576 = "Medium" ∧
    (∀ n : Int, size_map.find? (fun e => inRange n e.2.1 e.2.2) = none →
      sizeFolderName n = "Unknown") := by
  refine ⟨?_, by decide, by decide, by decide, ?_⟩
  · intro n hn
    rw [sizeFolderName_eq, if_neg (by omega)]
  · intro n hfind
    unfold sizeFolderName
    rw [hfind]
    rfl

/-- Witness for C5 at concrete sizes: 5000 bytes is Small, and −1 (a size
no bucket matches) falls to Unknown. -/
theorem C5_size_bucket_partition_witness :
    sizeFolderName 5000 = "Small" ∧ sizeFolderName (-1) = "Unknown" :=
  ⟨by rw [C5_size_bucket_partition.1 5000 (by decide)]; decide,
   C5_size_bucket_partition.2.2.2.2 (-1) (by decide)⟩
/-- C1 as stated is false on the code: with extension template
`\x7bfoo\x7d`, the first file's formatting `KeyError` is raised outside
the `try` block, so it is not converted into a `Failed` report for that
file — the whole walk aborts, nothing is reported, and the second file is
never processed. -/
theorem C1_counterexample :
    (Cli.organize_by_extension ["root"] false "\x7bfoo\x7d" okOracle
        [entryA, entryB]).results = [] ∧
    (Cli.organize_by_extension ["root"] false "\x7bfoo\x7d" okOracle
        [entryA, entryB]).aborted = some "KeyError: foo" ∧
    (Cli.organize_by_extension ["root"] false "\x7bfoo\x7d" okOracle
        [entryA, entryB]).actions = [] :=
  ⟨rfl, rfl, rfl⟩

/-- C1 amended: when the strategy's folder-name template references a
placeholder outside the strategy's substitution set, the formatting error
is an uncaught exception that aborts the whole walk at that entry — no
per-file `Failed` result is produced and the remaining entries are not
processed (shown for the extension and the date strategy, whose `format`
calls sit outside the `try` block). -/
theorem C1_format_error_aborts_walk :
    (∀ (root : FilePath') (dry : Bool) (tmpl : String) (oracle : FsOracle)
      (item : Entry) (rest : List Entry) (e : String),
      item.isFile = true → startsWithDot item.name = false →
      pyLower (pySuffix item.name) ≠ "" →
      extFolderName tmpl item.name = Except.error e →
      Cli.organize_by_extension root dry tmpl oracle (item :: rest) =
        ⟨[], [], some e⟩) ∧
    (∀ (root : FilePath') (dry : Bool) (tmpl : String) (oracle : FsOracle)
      (item : Entry) (rest : List Entry) (e : String),
      item.isFile = true → startsWithDot item.name = false →
      dateFolderName tmpl item = Except.error e →
      Cli.organize_by_date root dry tmpl oracle (item :: rest) =
        ⟨[], [], some e⟩) := by
  constructor
  · intro root dry tmpl oracle item rest e hf hh hext hfold
    have hstep : Cli.extStep root dry tmpl oracle item = Except.error e := by
      unfold Cli.extStep
      rw [if_neg (by simp [hf, hh]), if_neg hext, hfold]
    unfold Cli.organize_by_extension
    rw [runLoop, hstep]
  · intro root dry tmpl oracle item rest e hf hh hfold
    have hstep : Cli.dateStep root dry tmpl oracle item = Except.error e := by
      unfold Cli.dateStep
      rw [if_neg (by simp [hf, hh]), hfold]
    unfold Cli.organize_by_date
    rw [runLoop, hstep]

/-- Witness for C1's amended statement: template `\x7bfoo\x7d` aborts both
the extension walk and the date walk at the first entry. -/
theorem C1_format_error_aborts_walk_witness :
    Cli.organize_by_extension ["root"] false "\x7bfoo\x7d" okOracle
      [entryA, entryB] = ⟨[], [], some "KeyError: foo"⟩ ∧
    Cli.organize_by_date ["root"] false "\x7bfoo\x7d" okOracle
      [entryA, entryB] = ⟨[], [], some "KeyError: foo"⟩ :=
  ⟨C1_format_error_aborts_walk.1 ["root"] false "\x7bfoo\x7d" okOracle entryA
      [entryB] "KeyError: foo" rfl rfl (by decide) rfl,
   C1_format_error_aborts_walk.2 ["root"] false "\x7bfoo\x7d" okOracle entryA
      [entryB] "KeyError: foo" rfl rfl rfl⟩
/-- C2 as stated is false on the code: `dest_dir.mkdir(exist_ok=True)`
sits outside the `try` block, so when directory creation fails for the
first file the exception is not reported as a per-file `Failed` result —
the walk aborts and the second file is never processed. -/
theorem C2_counterexample :
    (Cli.organize_by_extension ["root"] false "\x7bext\x7d" mkdirFailOracle
        [entryA, entryB]).results = [] ∧
    (Cli.organize_by_extension ["root"] false "\x7bext\x7d" mkdirFailOracle
        [entryA, entryB]).aborted = some "PermissionError: mkdir denied" ∧
    (Cli.organize_by_extension ["root"] false "\x7bext\x7d" mkdirFailOracle
        [entryA, entryB]).actions = [] :=
  ⟨rfl, rfl, rfl⟩

/-- C2 amended: in a non-dry run, a failure to create the destination
directory is NOT treated like a move failure: it is an uncaught exception
that aborts the whole walk at that entry, producing no per-file `Failed`
result and leaving the remaining entries unprocessed (shown for the
extension and the size strategy). -/
theorem C2_mkdir_failure_aborts_walk :
    (∀ (root : FilePath') (tmpl : String) (oracle : FsOracle)
      (item : Entry) (rest : List Entry) (d e : String),
      item.isFile = true → startsWithDot item.name = false →
      pyLower (pySuffix item.name) ≠ "" →
      extFolderName tmpl item.name = Except.ok d →
      oracle.mkdirError (root ++ [d]) = some e →
      Cli.organize_by_extension root false tmpl oracle (item :: rest) =
        ⟨[], [], some e⟩) ∧
    (∀ (root : FilePath') (tmpl : String) (oracle : FsOracle)
      (item : Entry) (rest : List Entry) (d e : String),
      item.isFile = true → startsWithDot item.name = false →
      sizeTemplateFolderName tmpl item = Except.ok d →
      oracle.mkdirError (root ++ [d]) = some e →
      Cli.organize_by_size root false tmpl oracle (item :: rest) =
        ⟨[], [], some e⟩) := by
  constructor
  · intro root tmpl oracle item rest d e hf hh hext hfold hmk
    have hstep : Cli.extStep root false tmpl oracle item = Except.error e := by
      unfold Cli.extStep
      rw [if_neg (by simp [hf, hh]), if_neg hext, hfold]
      simp only [Bool.false_eq_true, if_false, hmk]
    unfold Cli.organize_by_extension
    rw [runLoop, hstep]
  · intro root tmpl oracle item rest d e hf hh hfold hmk
    have hstep : Cli.sizeStep root false tmpl oracle item = Except.error e := by
      unfold Cli.sizeStep
      rw [if_neg (by simp [hf, hh]), hfold]
      simp only [Bool.false_eq_true, if_false, hmk]
    unfold Cli.organize_by_size
    rw [runLoop, hstep]

/-- Witness for C2's amended statement: a denied `mkdir` aborts the
extension walk and the size walk at the first entry. -/
theorem C2_mkdir_failure_aborts_walk_witness :
    Cli.organize_by_extension ["root"] false "\x7bext\x7d" mkdirFailOracle
      [entryA, entryB] = ⟨[], [], some "PermissionError: mkdir denied"⟩ ∧
    Cli.organize_by_size ["root"] false "\x7bsize\x7d" mkdirFailOracle
      [entryA, entryB] = ⟨[], [], some "PermissionError: mkdir denied"⟩ :=
  ⟨C2_mkdir_failure_aborts_walk.1 ["root"] "\x7bext\x7d" mkdirFailOracle entryA
      [entryB] "txt" "PermissionError: mkdir denied" rfl rfl (by decide) rfl rfl,
   C2_mkdir_failure_aborts_walk.2 ["root"] "\x7bsize\x7d" mkdirFailOracle entryA
      [entryB] "Tiny" "PermissionError: mkdir denied" rfl rfl rfl rfl⟩

/-- C3: a filesystem-level rename failure is caught per-file and the walk
continues (the second file is still moved), but the `Failed` report's text
is the literal placeholder `\x7be\x7d` — cli.py's f-string doubles the
braces — and not the underlying error message the oracle raised. -/
theorem C3_rename_failure_literal_report :
    (Cli.organize_by_extension ["root"] false "\x7bext\x7d" renameAFailOracle
        [entryA, entryB]).results =
      [OrganizeResult.failed "Error moving 'a.txt': \x7be\x7d",
       OrganizeResult.moved ["root", "txt", "b.txt"]] ∧
    (Cli.organize_by_extension ["root"] false "\x7bext\x7d" renameAFailOracle
        [entryA, entryB]).aborted = none ∧
    renameAFailOracle.renameError ["root", "a.txt"] ["root", "txt", "a.txt"] =
      some "PermissionError: Permission denied" ∧
    ¬ ("PermissionError: Permission denied".data <:+:
      "Error moving 'a.txt': \x7be\x7d".data) :=
  ⟨rfl, rfl, rfl, by decide⟩
/-- C6: under the extension strategy the template's `ext` placeholder is
filled with the lower-cased extension text without its leading dot, so the
computed folder name depends only on the case-folded extension: names
whose lower-cased suffixes agree get the same folder, and with the default
template both `photo.JPG` and `photo.jpg` go to folder `jpg`. -/
theorem C6_extension_case_insensitive :
    (∀ (tmpl n1 n2 : String), pyLower (pySuffix n1) = pyLower (pySuffix n2) →
      extFolderName tmpl n1 = extFolderName tmpl n2) ∧
    (∀ name : String, extFolderName "\x7bext\x7d" name =
      Except.ok ((pyLower (pySuffix name)).drop 1)) ∧
    extFolderName "\x7bext\x7d" "photo.JPG" = Except.ok "jpg" ∧
    extFolderName "\x7bext\x7d" "photo.jpg" = Except.ok "jpg" := by
  refine ⟨?_, extFolderName_default, by rfl, by rfl⟩
  intro tmpl n1 n2 h
  unfold extFolderName
  rw [h]

/-- Witness for C6: `photo.JPG` and `photo.jpg` share one folder name. -/
theorem C6_extension_case_insensitive_witness :
    extFolderName "\x7bext\x7d" "photo.JPG" =
      extFolderName "\x7bext\x7d" "photo.jpg" :=
  C6_extension_case_insensitive.1 "\x7bext\x7d" "photo.JPG" "photo.jpg" (by rfl)

/-- C7: under every strategy, every dry-run setting, every template,
failure environment and directory listing, each `rename` performed by the
walk has as its source the path of some listed entry that is a regular
file and not hidden — a directory or dot-named entry is never relocated. -/
theorem C7_hidden_and_directories_never_moved :
    ∀ (root : FilePath') (dry : Bool) (tmpl : String) (oracle : FsOracle)
      (items : List Entry) (src dst : FilePath'),
      (FsAction.rename src dst ∈
          (Cli.organize_by_extension root dry tmpl oracle items).actions ∨
        FsAction.rename src dst ∈
          (Cli.organize_by_date root dry tmpl oracle items).actions ∨
        FsAction.rename src dst ∈
          (Cli.organize_by_size root dry tmpl oracle items).actions) →
      ∃ item ∈ items, item.isFile = true ∧ startsWithDot item.name = false ∧
        src = item.dir ++ [item.name] := by
  intro root dry tmpl oracle items src dst h
  rcases h with h | h | h
  · obtain ⟨item, hmem, acts, r, hstep, ha⟩ := runLoop_actions_mem h
    rcases extStep_actions_spec hstep _ ha with ⟨d, hd⟩ | ⟨d, hd, hf, hh⟩
    · simp at hd
    · rw [FsAction.rename.injEq] at hd
      exact ⟨item, hmem, hf, hh, hd.1⟩
  · obtain ⟨item, hmem, acts, r, hstep, ha⟩ := runLoop_actions_mem h
    rcases dateStep_actions_spec hstep _ ha with ⟨d, hd⟩ | ⟨d, hd, hf, hh⟩
    · simp at hd
    · rw [FsAction.rename.injEq] at hd
      exact ⟨item, hmem, hf, hh, hd.1⟩
  · obtain ⟨item, hmem, acts, r, hstep, ha⟩ := runLoop_actions_mem h
    rcases sizeStep_actions_spec hstep _ ha with ⟨d, hd⟩ | ⟨d, hd, hf, hh⟩
    · simp at hd
    · rw [FsAction.rename.injEq] at hd
      exact ⟨item, hmem, hf, hh, hd.1⟩

/-- Witness for C7 on a concrete run that does perform a rename. -/
theorem C7_hidden_and_directories_never_moved_witness :
    ∃ item ∈ [entryA], item.isFile = true ∧ startsWithDot item.name = false ∧
      ["root", "a.txt"] = item.dir ++ [item.name] :=
  C7_hidden_and_directories_never_moved ["root"] false "\x7bext\x7d" okOracle
    [entryA] ["root", "a.txt"] ["root", "txt", "a.txt"] (Or.inl (by decide))

/-- C8: every `rename` performed by any strategy walk sends some listed
entry, wherever its parent directory lies, to
`root/<folder name>/<its base name>` — the destination is resolved against
the run's root, so recursive listings are flattened into the root's
per-folder children. -/
theorem C8_destination_resolved_against_root :
    ∀ (root : FilePath') (dry : Bool) (tmpl : String) (oracle : FsOracle)
      (items : List Entry) (src dst : FilePath'),
      (FsAction.rename src dst ∈
          (Cli.organize_by_extension root dry tmpl oracle items).actions ∨
        FsAction.rename src dst ∈
          (Cli.organize_by_date root dry tmpl oracle items).actions ∨
        FsAction.rename src dst ∈
          (Cli.organize_by_size root dry tmpl oracle items).actions) →
      ∃ item ∈ items, ∃ d : String,
        src = item.dir ++ [item.name] ∧ dst = root ++ [d, item.name] := by
  intro root dry tmpl oracle items src dst h
  rcases h with h | h | h
  · obtain ⟨item, hmem, acts, r, hstep, ha⟩ := runLoop_actions_mem h
    rcases extStep_actions_spec hstep _ ha with ⟨d, hd⟩ | ⟨d, hd, hf, hh⟩
    · simp at hd
    · rw [FsAction.rename.injEq] at hd
      exact ⟨item, hmem, d, hd.1, hd.2⟩
  · obtain ⟨item, hmem, acts, r, hstep, ha⟩ := runLoop_actions_mem h
    rcases dateStep_actions_spec hstep _ ha with ⟨d, hd⟩ | ⟨d, hd, hf, hh⟩
    · simp at hd
    · rw [FsAction.rename.injEq] at hd
      exact ⟨item, hmem, d, hd.1, hd.2⟩
  · obtain ⟨item, hmem, acts, r, hstep, ha⟩ := runLoop_actions_mem h
    rcases sizeStep_actions_spec hstep _ ha with ⟨d, hd⟩ | ⟨d, hd, hf, hh⟩
    · simp at hd
    · rw [FsAction.rename.injEq] at hd
      exact ⟨item, hmem, d, hd.1, hd.2⟩

/-- Witness for C8 on a recursive-style listing: `root/sub/c.txt` is sent
to `root/txt/c.txt`, not to `root/sub/txt/c.txt`. -/
theorem C8_destination_resolved_against_root_witness :
    ∃ item ∈ [entrySub], ∃ d : String,
      ["root", "sub", "c.txt"] = item.dir ++ [item.name] ∧
      ["root", "txt", "c.txt"] = ["root"] ++ [d, item.name] :=
  C8_destination_resolved_against_root ["root"] false "\x7bext\x7d" okOracle
    [entrySub] ["root", "sub", "c.txt"] ["root", "txt", "c.txt"]
    (Or.inl (by decide))
/-- C9: on every root, failure environment and directory listing, the
extension organizer of src/main.py and the cli.py one at its defaults
(`dry_run=False`, non-recursive listing, `ext_template="\x7bext\x7d"`)
perform exactly the same filesystem actions (same `mkdir`s and the same
moves of the same eligible files to the same destinations), abort
identically, and emit the same per-file reports up to the wording of
failure messages. -/
theorem C9_main_and_cli_equivalent :
    ∀ (root : FilePath') (oracle : FsOracle) (items : List Entry),
      (MainPy.organize_by_extension root oracle items).actions =
        (Cli.organize_by_extension root false "\x7bext\x7d" oracle items).actions ∧
      (MainPy.organize_by_extension root oracle items).results.map resultCore =
        (Cli.organize_by_extension root false "\x7bext\x7d" oracle
            items).results.map resultCore ∧
      (MainPy.organize_by_extension root oracle items).aborted =
        (Cli.organize_by_extension root false "\x7bext\x7d" oracle items).aborted := by
  intro root oracle items
  have h := runLoop_congr_core
    (fun item => (ext_default_step_equiv root oracle item).symm) items
  exact h

/-- C10: in a non-dry extension or date run, the destination directory is
created before the rename is attempted; when the rename then fails, the
walk records exactly the `mkdir`, reports the file as failed, and goes on —
so the filesystem is not left unchanged: the created directory persists. -/
theorem C10_mkdir_persists_after_failed_rename :
    (∀ (root : FilePath') (tmpl : String) (oracle : FsOracle)
      (item : Entry) (rest : List Entry) (d e : String),
      item.isFile = true → startsWithDot item.name = false →
      pyLower (pySuffix item.name) ≠ "" →
      extFolderName tmpl item.name = Except.ok d →
      oracle.mkdirError (root ++ [d]) = none →
      oracle.renameError (item.dir ++ [item.name]) (root ++ [d] ++ [item.name]) =
        some e →
      Cli.organize_by_extension root false tmpl oracle (item :: rest) =
        ⟨FsAction.mkdir (root ++ [d]) ::
            (Cli.organize_by_extension root false tmpl oracle rest).actions,
          OrganizeResult.failed ("Error moving '" ++ item.name ++ "': \x7be\x7d") ::
            (Cli.organize_by_extension root false tmpl oracle rest).results,
          (Cli.organize_by_extension root false tmpl oracle rest).aborted⟩) ∧
    (∀ (root : FilePath') (tmpl : String) (oracle : FsOracle)
      (item : Entry) (rest : List Entry) (d e : String),
      item.isFile = true → startsWithDot item.name = false →
      dateFolderName tmpl item = Except.ok d →
      oracle.mkdirError (root ++ [d]) = none →
      oracle.renameError (item.dir ++ [item.name]) (root ++ [d] ++ [item.name]) =
        some e →
      Cli.organize_by_date root false tmpl oracle (item :: rest) =
        ⟨FsAction.mkdir (root ++ [d]) ::
            (Cli.organize_by_date root false tmpl oracle rest).actions,
          OrganizeResult.failed ("Error moving '" ++ item.name ++ "': \x7be\x7d") ::
            (Cli.organize_by_date root false tmpl oracle rest).results,
          (Cli.organize_by_date root false tmpl oracle rest).aborted⟩) := by
  constructor
  · intro root tmpl oracle item rest d e hf hh hext hfold hmk hrn
    have hstep : Cli.extStep root false tmpl oracle item =
        Except.ok ([FsAction.mkdir (root ++ [d])],
          some (OrganizeResult.failed
            ("Error moving '" ++ item.name ++ "': \x7be\x7d"))) := by
      unfold Cli.extStep
      rw [if_neg (by simp [hf, hh]), if_neg hext, hfold]
      simp only [Bool.false_eq_true, if_false, hmk, hrn]
    unfold Cli.organize_by_extension
    rw [runLoop, hstep]
    rfl
  · intro root tmpl oracle item rest d e hf hh hfold hmk hrn
    have hstep : Cli.dateStep root false tmpl oracle item =
        Except.ok ([FsAction.mkdir (root ++ [d])],
          some (OrganizeResult.failed
            ("Error moving '" ++ item.name ++ "': \x7be\x7d"))) := by
      unfold Cli.dateStep
      rw [if_neg (by simp [hf, hh]), hfold]
      simp only [Bool.false_eq_true, if_false, hmk, hrn]
    unfold Cli.organize_by_date
    rw [runLoop, hstep]
    rfl

/-- Witness for C10: with a denied rename of `root/a.txt`, the extension
run and the date run each still create their destination directory and
then report the file as failed. -/
theorem C10_mkdir_persists_after_failed_rename_witness :
    Cli.organize_by_extension ["root"] false "\x7bext\x7d" renameAFailOracle
      [entryA] =
      ⟨[FsAction.mkdir ["root", "txt"]],
       [OrganizeResult.failed "Error moving 'a.txt': \x7be\x7d"], none⟩ ∧
    Cli.organize_by_date ["root"] false "\x7bYYYY\x7d-\x7bMM\x7d-\x7bDD\x7d"
      renameAFailOracle [entryA] =
      ⟨[FsAction.mkdir ["root", "2024-03-05"]],
       [OrganizeResult.failed "Error moving 'a.txt': \x7be\x7d"], none⟩ :=
  ⟨C10_mkdir_persists_after_failed_rename.1 ["root"] "\x7bext\x7d"
      renameAFailOracle entryA [] "txt" "PermissionError: Permission denied"
      rfl rfl (by decide) rfl rfl rfl,
   C10_mkdir_persists_after_failed_rename.2 ["root"]
      "\x7bYYYY\x7d-\x7bMM\x7d-\x7bDD\x7d" renameAFailOracle entryA []
      "2024-03-05" "PermissionError: Permission denied" rfl rfl rfl rfl rfl⟩
